import Mathlib

/-!
# Topology cluster reconciler fuzz harness

A shallow embedding of
`projects/cluster-api/topology_cluster_reconciler_fuzzer.go`.

The harness consists of two local validators (`validateUnstructured`,
`validateBlueprint`), one local helper (`GetUnstructured`), the package state
(`fakeSchemeForFuzzing`, `initter`, `initFunc`) and four fuzz entry points.
Everything else the file touches lives in other modules (the fuzz consumer,
the YAML decoder, the cluster-api reconciler and its test builders, the fake
client). Those are taken as parameters (`Gen`, `Targets`), and every call the
harness makes into them is recorded, in program order, in a trace of `Event`s.
The context argument `fuzzCtx` is the constant background context and is left
out.
The entry points are first given with every call returning; `EntryPoint.run`
then describes a call that panics, which ends the entry point since the file
has no `recover`.

Go pointers are `Option`s (`none` is `nil`), Go `error` results are
`Except String`, and a Go map is an association list wrapped in an `Option`
(`none` is the nil map, on which a lookup reports absence).
-/

namespace TopologyFuzz

/-! ## Documents -/

/-- Values stored in a decoded document (`interface{}` after YAML decoding).
The harness never inspects a value, only whether a key is present. -/
inductive Value where
  | null
  | bool (b : Bool)
  | number (n : Int)
  | string (s : String)
  | array (xs : List Value)
  | object (kvs : List (String × Value))

/-- Go `map[string]interface{}`; `none` is the nil map. -/
abbrev Object := Option (List (String × Value))

/-- The comma-ok lookup `_, ok := m[key]`: reports whether `key` is present.
On the nil map the lookup reports absence. -/
def Object.has (m : Object) (key : String) : Bool :=
  match m with
  | none => false
  | some kvs => kvs.any (fun kv => kv.1 == key)

/-- Type `unstructured.Unstructured`: a wrapper around the decoded map. -/
structure Unstructured where
  Object : Object

/-- Source lines 206-220. -/
def validateUnstructured (unstr : Unstructured) : Except String Unit :=
  if !unstr.Object.has "kind" then
    .error "invalid unstr"
  else if !unstr.Object.has "apiVersion" then
    .error "invalid unstr"
  else if !unstr.Object.has "spec" then
    .error "invalid unstr"
  else if !unstr.Object.has "status" then
    .error "invalid unstr"
  else
    .ok ()

/-! ## Blueprints -/

/-- The types of other modules that the harness only generates and hands on,
never inspects. -/
structure World where
  /-- Type `fuzz.ConsumeFuzzer` (the consumer state). -/
  Consumer : Type
  /-- Type `clusterv1.Cluster`. -/
  Cluster : Type
  /-- Type `clusterv1.MachineHealthCheck`. -/
  MachineHealthCheck : Type
  /-- Type `corev1.Node`. -/
  Node : Type
  /-- Type `clusterv1.LocalObjectTemplate`. -/
  LocalObjectTemplate : Type
  /-- The fields of `scope.ClusterBlueprint` other than `ClusterClass`. -/
  BlueprintRest : Type
  /-- The fields of `scope.Scope` other than `Blueprint`, `Current`, `Desired`. -/
  ScopeRest : Type

/-- Type `clusterv1.ControlPlaneClass`, the field the harness reads. -/
structure ControlPlaneClass (W : World) where
  MachineInfrastructure : Option W.LocalObjectTemplate

/-- Type `clusterv1.ClusterClassSpec`, the field the harness reads. -/
structure ClusterClassSpec (W : World) where
  ControlPlane : ControlPlaneClass W

/-- Type `clusterv1.ClusterClass`, the field the harness reads. -/
structure ClusterClass (W : World) where
  Spec : ClusterClassSpec W

/-- Type `scope.ClusterBlueprint`. -/
structure ClusterBlueprint (W : World) where
  ClusterClass : Option (ClusterClass W)
  rest : W.BlueprintRest

/-- Source lines 146-154. The argument is the pointee of a non-nil `b`. -/
def validateBlueprint {W : World} (b : ClusterBlueprint W) : Except String Unit :=
  match b.ClusterClass with
  | none => .error "ClusterClass is nil"
  | some cc =>
    match cc.Spec.ControlPlane.MachineInfrastructure with
    | none => .error "ClusterClass.Spec.ControlPlane.MachineInfrastructure is nil"
    | some _ => .ok ()

/-! ## Values handed to the reconciler -/

/-- Type `types.NamespacedName`. -/
structure NamespacedName where
  Namespace : String
  Name : String

/-- The object built by `builder.ControlPlane(namespace, name)`, optionally
followed by `WithVersion`, `WithReplicas`, `Build` and `SetUID`; it is described
by the arguments of those calls. -/
structure ControlPlaneObject where
  Namespace : String
  Name : String
  Version : Option String
  Replicas : Option Int
  UID : Option String

/-- Call `builder.ControlPlane(namespace, name)`. -/
def builderControlPlane (ns name : String) : ControlPlaneObject :=
  { Namespace := ns, Name := name, Version := none, Replicas := none, UID := none }

/-- Method `Build`: hands out the object described so far. -/
def ControlPlaneObject.Build (o : ControlPlaneObject) : ControlPlaneObject := o

/-- Method `WithVersion`. -/
def ControlPlaneObject.WithVersion (o : ControlPlaneObject) (v : String) : ControlPlaneObject :=
  { o with Version := some v }

/-- Method `WithReplicas`. -/
def ControlPlaneObject.WithReplicas (o : ControlPlaneObject) (n : Int) : ControlPlaneObject :=
  { o with Replicas := some n }

/-- Method `SetUID`. -/
def ControlPlaneObject.SetUID (o : ControlPlaneObject) (uid : String) : ControlPlaneObject :=
  { o with UID := some uid }

/-- Type `scope.ControlPlaneState`, the field the harness sets. -/
structure ControlPlaneState where
  Object : Option ControlPlaneObject

/-- Type `scope.ClusterState`, the fields the harness sets. -/
structure ClusterState (W : World) where
  Cluster : Option W.Cluster
  ControlPlane : Option ControlPlaneState

/-- Type `scope.Scope`. -/
structure Scope (W : World) where
  Blueprint : Option (ClusterBlueprint W)
  Current : Option (ClusterState W)
  Desired : Option (ClusterState W)
  rest : W.ScopeRest

/-- Type `contract.Path`. -/
abbrev Path := List String

/-- Modelled from the spec: the value of
`contract.ControlPlane().MachineTemplate().Metadata().Path()`, which lives in
the cluster-api `contract` package. The spec and the comment at the call site
both give it as `spec.machineTemplate.metadata`. -/
def controlPlaneMachineTemplateMetadataPath : Path :=
  ["spec", "machineTemplate", "metadata"]

/-- Interface `mergepatch.HelperOption` with its two implementations. -/
inductive HelperOption where
  | AuthoritativePaths (paths : List Path)
  | IgnorePaths (paths : List Path)

/-- Type `reconcileReferencedObjectInput`, the fields the harness sets. -/
structure reconcileReferencedObjectInput (W : World) where
  cluster : Option W.Cluster
  current : Option Unstructured
  desired : Option Unstructured
  opts : List HelperOption

/-! ## Package state, fake client, trace -/

/-- The type groups that `initFunc` registers in a scheme. -/
inductive SchemeGroup where
  | clientgoscheme
  | clusterv1
  | apiextensionsv1
  | corev1
  deriving DecidableEq, Repr

/-- Package variables (source lines 49-55): the scheme, as the list of groups
registered so far, and whether `initter` (a `sync.Once`) has fired. -/
structure PkgState where
  fakeSchemeForFuzzing : List SchemeGroup
  initterDone : Bool
  deriving DecidableEq, Repr

/-- The package state at program start: `runtime.NewScheme()` is empty and
`initter` has not fired. -/
def PkgState.initial : PkgState :=
  { fakeSchemeForFuzzing := [], initterDone := false }

/-- Objects handed to `WithObjects`. -/
inductive SeedObject (W : World) where
  | controlPlane (cp : ControlPlaneObject)
  | node (n : W.Node)
  | cluster (c : W.Cluster)
  | GenericInfrastructureMachineCRD
  | unstructured (u : Unstructured)

/-- The result of `fake.NewClientBuilder()...Build()`: the scheme passed to
`WithScheme` as it stands when the client is built (`none` when `WithScheme`
was not called) and the objects passed to `WithObjects`. -/
structure FakeClient (W : World) where
  scheme : Option (List SchemeGroup)
  objects : List (SeedObject W)

/-- Type `Reconciler`, the fields the harness sets; `recorder` holds the buffer
size given to `record.NewFakeRecorder`. -/
structure Reconciler (W : World) where
  Client : Option (FakeClient W)
  APIReader : Option (FakeClient W)
  recorder : Option Nat

/-- The generation and validation calls whose error makes an entry point
return 0. -/
inductive Step where
  | GenerateStruct
  | GetUnstructured
  | validateBlueprint
  | validateUnstructured
  deriving DecidableEq, Repr

/-- The methods of `Reconciler` named in the file (in code or in a header
comment). -/
inductive Target where
  | reconcileMachineHealthCheck
  | reconcileReferencedObject
  | reconcileControlPlane
  | reconcileInfrastructureCluster
  | Reconcile
  deriving DecidableEq, Repr

/-- What a fuzz entry point does, in program order. -/
inductive Event (W : World) where
  /-- The body of `initFunc` ran. -/
  | initFunc
  /-- A generation or validation call returned; `ok` is `err == nil`. -/
  | step (s : Step) (ok : Bool)
  /-- A fake client was built. -/
  | fakeClientBuild (c : FakeClient W)
  /-- Call `fmt.Printf` of the scope. -/
  | printScope (s : Scope W)
  /-- Call `fmt.Println` of an error. -/
  | printErr (e : String)
  | reconcileMachineHealthCheck (r : Reconciler W) (current desired : Option W.MachineHealthCheck)
  | reconcileReferencedObject (r : Reconciler W) (input : reconcileReferencedObjectInput W)
  | reconcileControlPlane (r : Reconciler W) (s : Option (Scope W))
  | reconcileInfrastructureCluster (r : Reconciler W) (s : Option (Scope W))
  | Reconcile (r : Reconciler W) (req : NamespacedName)

/-- The reconciler method an event is a call of, if any. -/
def Event.target? {W : World} : Event W → Option Target
  | .reconcileMachineHealthCheck _ _ _ => some .reconcileMachineHealthCheck
  | .reconcileReferencedObject _ _ => some .reconcileReferencedObject
  | .reconcileControlPlane _ _ => some .reconcileControlPlane
  | .reconcileInfrastructureCluster _ _ => some .reconcileInfrastructureCluster
  | .Reconcile _ _ => some .Reconcile
  | _ => none

/-- Number of calls of reconciler method `t` in a trace. -/
def invocations {W : World} (t : Target) (trace : List (Event W)) : Nat :=
  trace.countP (fun e => e.target? == some t)

/-- Whether an event is a run of the body of `initFunc`. -/
def Event.isInitFunc {W : World} : Event W → Bool
  | .initFunc => true
  | _ => false

/-- Return value, package state and trace of one entry-point call. -/
structure Outcome (W : World) where
  ret : Int
  st : PkgState
  trace : List (Event W)

/-! ## Other modules -/

/-- The generation side of the other modules: the fuzz consumer
(`go-fuzz-headers`), the YAML decoder, and the helpers of cluster-api and
apimachinery that build values. `GenerateStruct` is given per pointee type and
returns the filled value with the advanced consumer. -/
structure Gen (W : World) where
  NewConsumer : List Nat → W.Consumer
  GenerateCluster : W.Consumer → Except String (W.Cluster × W.Consumer)
  GenerateMachineHealthCheck : W.Consumer → Except String (W.MachineHealthCheck × W.Consumer)
  GenerateClusterBlueprint : W.Consumer → Except String (ClusterBlueprint W × W.Consumer)
  GenerateNode : W.Consumer → Except String (W.Node × W.Consumer)
  GetString : W.Consumer → Except String (String × W.Consumer)
  /-- Call `yaml.Unmarshal` into a fresh map: the resulting map, or the error. -/
  yamlUnmarshal : String → Except String Object
  /-- Constant `metav1.NamespaceDefault`. -/
  NamespaceDefault : String
  /-- Function `scope.New`. -/
  scopeNew : W.Cluster → Scope W
  /-- Function `util.ObjectKey`. -/
  ObjectKey : W.Cluster → NamespacedName

/-- The reconciler methods under test, as total functions giving the error the
method returns. A call that panics instead of returning is described
separately, by the predicate given to `EntryPoint.run`. -/
structure Targets (W : World) where
  reconcileMachineHealthCheck :
    Reconciler W → Option W.MachineHealthCheck → Option W.MachineHealthCheck → Except String Unit
  reconcileReferencedObject : Reconciler W → reconcileReferencedObjectInput W → Except String Unit
  reconcileControlPlane : Reconciler W → Option (Scope W) → Except String Unit
  Reconcile : Reconciler W → NamespacedName → Except String Unit

/-! ## The harness -/

/-- Source lines 57-62: the four `AddToScheme` calls, whose errors are
discarded. -/
def initFunc (st : PkgState) : PkgState :=
  { st with fakeSchemeForFuzzing :=
      st.fakeSchemeForFuzzing ++
        [SchemeGroup.clientgoscheme, SchemeGroup.clusterv1,
         SchemeGroup.apiextensionsv1, SchemeGroup.corev1] }

/-- Call `initter.Do(initFunc)`: runs `initFunc` unless `initter` has fired
already, and marks it fired. -/
def initterDo (W : World) (st : PkgState) : PkgState × List (Event W) :=
  if st.initterDone then (st, [])
  else ({ initFunc st with initterDone := true }, [Event.initFunc])

/-- The statement pair `v, err := call` and `if err != nil` with body
`return 0`, followed by the rest of the function `k`; the call is recorded in
the trace. -/
def orReturn0 {W : World} {α : Type} (s : Step) (r : Except String α) (st : PkgState)
    (k : α → Outcome W) : Outcome W :=
  match r with
  | .error _ => { ret := 0, st := st, trace := [Event.step s false] }
  | .ok a => { k a with trace := Event.step s true :: (k a).trace }

/-- Source lines 133-144. -/
def GetUnstructured {W : World} (G : Gen W) (f : W.Consumer) :
    Except String (Unstructured × W.Consumer) :=
  match G.GetString f with
  | .error e => .error e
  | .ok (yamlStr, f) =>
    match G.yamlUnmarshal yamlStr with
    | .error e => .error e
    | .ok obj => .ok ({ Object := obj }, f)

/-- Source lines 65-93. -/
def FuzzreconcileMachineHealthCheck {W : World} (G : Gen W) (T : Targets W)
    (data : List Nat) (st0 : PkgState) : Outcome W :=
  let st := (initterDo W st0).1
  let f := G.NewConsumer data
  let o : Outcome W :=
    orReturn0 Step.GenerateStruct (G.GenerateMachineHealthCheck f) st fun (current, f) =>
    orReturn0 Step.GenerateStruct (G.GenerateMachineHealthCheck f) st fun (desired, _) =>
    let cp := (builderControlPlane G.NamespaceDefault "cp1").Build
    let cp := cp.SetUID "very-unique-identifier"
    let client : FakeClient W :=
      { scheme := some st.fakeSchemeForFuzzing, objects := [SeedObject.controlPlane cp] }
    let r : Reconciler W := { Client := some client, APIReader := none, recorder := some 32 }
    let _ := T.reconcileMachineHealthCheck r (some current) (some desired)
    { ret := 1, st := st,
      trace := [Event.fakeClientBuild client,
                Event.reconcileMachineHealthCheck r (some current) (some desired)] }
  { o with trace := (initterDo W st0).2 ++ o.trace }

/-- Source lines 96-130. -/
def FuzzreconcileReferencedObject {W : World} (G : Gen W) (T : Targets W)
    (data : List Nat) (st : PkgState) : Outcome W :=
  let f := G.NewConsumer data
  orReturn0 Step.GenerateStruct (G.GenerateCluster f) st fun (cluster, f) =>
  orReturn0 Step.GetUnstructured (GetUnstructured G f) st fun (current, f) =>
  orReturn0 Step.GetUnstructured (GetUnstructured G f) st fun (desired, _) =>
  let fakeClient : FakeClient W := { scheme := some st.fakeSchemeForFuzzing, objects := [] }
  let r : Reconciler W := { Client := some fakeClient, APIReader := none, recorder := some 32 }
  let input : reconcileReferencedObjectInput W :=
    { cluster := some cluster,
      current := some current,
      desired := some desired,
      opts := [HelperOption.AuthoritativePaths [controlPlaneMachineTemplateMetadataPath]] }
  let _ := T.reconcileReferencedObject r input
  { ret := 1, st := st,
    trace := [Event.fakeClientBuild fakeClient, Event.reconcileReferencedObject r input] }

/-- Source lines 157-204. -/
def FuzzreconcileControlPlane {W : World} (G : Gen W) (T : Targets W)
    (data : List Nat) (st : PkgState) : Outcome W :=
  let f := G.NewConsumer data
  orReturn0 Step.GenerateStruct (G.GenerateCluster f) st fun (cluster, f) =>
  orReturn0 Step.GenerateStruct (G.GenerateCluster f) st fun (desiredCluster, f) =>
  orReturn0 Step.GenerateStruct (G.GenerateClusterBlueprint f) st fun (bp, _) =>
  orReturn0 Step.validateBlueprint (validateBlueprint bp) st fun _ =>
  let desired : ClusterState W :=
    { Cluster := some desiredCluster,
      ControlPlane := some
        { Object := some
            (((builderControlPlane "ns1" "controlplane1").WithVersion "v1.21.2").WithReplicas 3).Build } }
  let s : Scope W := { G.scopeNew cluster with Desired := some desired, Blueprint := some bp }
  let fakeClient : FakeClient W := { scheme := some st.fakeSchemeForFuzzing, objects := [] }
  let r : Reconciler W := { Client := some fakeClient, APIReader := none, recorder := some 32 }
  let printed : List (Event W) :=
    match T.reconcileControlPlane r (some s) with
    | .error e => [Event.printErr e]
    | .ok _ => []
  { ret := 1, st := st,
    trace := [Event.fakeClientBuild fakeClient, Event.printScope s,
              Event.reconcileControlPlane r (some s)] ++ printed }

/-- Source lines 222-255. -/
def FuzzClusterReconcile {W : World} (G : Gen W) (T : Targets W)
    (data : List Nat) (st : PkgState) : Outcome W :=
  let f := G.NewConsumer data
  orReturn0 Step.GetUnstructured (GetUnstructured G f) st fun (unstr, f) =>
  orReturn0 Step.validateUnstructured (validateUnstructured unstr) st fun _ =>
  orReturn0 Step.GenerateStruct (G.GenerateCluster f) st fun (cluster, f) =>
  orReturn0 Step.GenerateStruct (G.GenerateNode f) st fun (node, _) =>
  let clientFake : FakeClient W :=
    { scheme := none,
      objects := [SeedObject.node node, SeedObject.cluster cluster,
                  SeedObject.GenericInfrastructureMachineCRD, SeedObject.unstructured unstr] }
  let r : Reconciler W := { Client := some clientFake, APIReader := some clientFake, recorder := none }
  let _ := T.Reconcile r (G.ObjectKey cluster)
  { ret := 1, st := st,
    trace := [Event.fakeClientBuild clientFake, Event.Reconcile r (G.ObjectKey cluster)] }

/-- The four fuzz entry points of the file. -/
inductive EntryPoint where
  | FuzzreconcileMachineHealthCheck
  | FuzzreconcileReferencedObject
  | FuzzreconcileControlPlane
  | FuzzClusterReconcile
  deriving DecidableEq, Repr

/-- Calling an entry point on fuzz data. -/
def EntryPoint.call {W : World} (G : Gen W) (T : Targets W) :
    EntryPoint → List Nat → PkgState → Outcome W
  | .FuzzreconcileMachineHealthCheck => TopologyFuzz.FuzzreconcileMachineHealthCheck G T
  | .FuzzreconcileReferencedObject => TopologyFuzz.FuzzreconcileReferencedObject G T
  | .FuzzreconcileControlPlane => TopologyFuzz.FuzzreconcileControlPlane G T
  | .FuzzClusterReconcile => TopologyFuzz.FuzzClusterReconcile G T

/-- The reconciler method each entry point calls in its code. -/
def EntryPoint.target : EntryPoint → Target
  | .FuzzreconcileMachineHealthCheck => Target.reconcileMachineHealthCheck
  | .FuzzreconcileReferencedObject => Target.reconcileReferencedObject
  | .FuzzreconcileControlPlane => Target.reconcileControlPlane
  | .FuzzClusterReconcile => Target.Reconcile

/-- A sequence of entry-point calls in one process: the package state is
threaded through and the traces are concatenated. -/
def runCalls {W : World} (G : Gen W) (T : Targets W) :
    List (EntryPoint × List Nat) → PkgState → PkgState × List (Event W)
  | [], st => (st, [])
  | (ep, data) :: rest, st =>
    let o := ep.call G T data st
    let r := runCalls G T rest o.st
    (r.1, o.trace ++ r.2)

/-! ## Calls that panic

The file has no `recover`. When a call made by an entry point panics, the
entry point ends at that call and returns nothing. -/

/-- Return value and trace of an entry-point call when calls may panic; `ret`
is `none` when the entry point did not return. -/
structure Run (W : World) where
  ret : Option Int
  trace : List (Event W)

/-- The part of a trace up to and including the first call that panics;
`none` when no call panics. -/
def cutAtPanic {W : World} (panics : Event W → Bool) : List (Event W) → Option (List (Event W))
  | [] => none
  | e :: rest =>
    if panics e then some [e]
    else
      match cutAtPanic panics rest with
      | some t => some (e :: t)
      | none => none

/-- Calling an entry point when the recorded calls selected by `panics` panic
instead of returning: the first such call is the last thing the entry point
does and no value is returned; when there is none the entry point runs to its
`return`. -/
def EntryPoint.run {W : World} (G : Gen W) (T : Targets W) (panics : Event W → Bool)
    (ep : EntryPoint) (data : List Nat) (st : PkgState) : Run W :=
  match cutAtPanic panics (ep.call G T data st).trace with
  | some t => { ret := none, trace := t }
  | none => { ret := some (ep.call G T data st).ret, trace := (ep.call G T data st).trace }

/-! ## A concrete instance of the other modules

Used to evaluate the harness on concrete fuzz data. Generated structs are
single bytes, the consumer is the list of bytes not yet read, and the decoder
knows two documents. -/

/-- Generated values are bytes, the consumer is the unread input. -/
def demoWorld : World :=
  { Consumer := List Nat, Cluster := Nat, MachineHealthCheck := Nat, Node := Nat,
    LocalObjectTemplate := Nat, BlueprintRest := Unit, ScopeRest := Unit }

/-- Reads one byte; fails on exhausted input. -/
def demoByte : List Nat → Except String (Nat × List Nat)
  | [] => .error "not enough bytes"
  | b :: rest => .ok (b, rest)

/-- A document lacking all required keys. -/
def demoBareYaml : String := "a: 1"

/-- A document with the four required keys. -/
def demoFullYaml : String := "kind: Cluster\napiVersion: v1\nspec: 1\nstatus: 2"

/-- Reads one byte and returns the string it selects. -/
def demoGetString : List Nat → Except String (String × List Nat)
  | [] => .error "not enough bytes"
  | 0 :: rest => .ok (demoBareYaml, rest)
  | 1 :: rest => .ok (demoFullYaml, rest)
  | _ :: rest => .ok ("[", rest)

/-- Decodes the two known documents and rejects everything else. -/
def demoYamlUnmarshal (s : String) : Except String Object :=
  if s = demoBareYaml then .ok (some [("a", Value.number 1)])
  else if s = demoFullYaml then
    .ok (some [("kind", Value.string "Cluster"), ("apiVersion", Value.string "v1"),
               ("spec", Value.number 1), ("status", Value.number 2)])
  else .error "yaml: unsupported document"

/-- Reads two bytes: a zero first byte leaves `ClusterClass` nil, a zero second
byte leaves `MachineInfrastructure` nil. -/
def demoGenerateClusterBlueprint :
    List Nat → Except String (ClusterBlueprint demoWorld × List Nat)
  | c :: m :: rest =>
    let mi : Option Nat := if m = 0 then none else some m
    let cc : Option (ClusterClass demoWorld) :=
      if c = 0 then none else some { Spec := { ControlPlane := { MachineInfrastructure := mi } } }
    .ok ({ ClusterClass := cc, rest := () }, rest)
  | _ => .error "not enough bytes"

/-- The generation side for `demoWorld`. -/
def demoGen : Gen demoWorld :=
  { NewConsumer := fun data => data
    GenerateCluster := demoByte
    GenerateMachineHealthCheck := demoByte
    GenerateClusterBlueprint := demoGenerateClusterBlueprint
    GenerateNode := demoByte
    GetString := demoGetString
    yamlUnmarshal := demoYamlUnmarshal
    NamespaceDefault := "default"
    scopeNew := fun c =>
      { Blueprint := some { ClusterClass := none, rest := () },
        Current := some { Cluster := some c, ControlPlane := none },
        Desired := none, rest := () }
    ObjectKey := fun _ => { Namespace := "default", Name := "cluster" } }

/-- Reconciler methods that all succeed. -/
def demoTargets : Targets demoWorld :=
  { reconcileMachineHealthCheck := fun _ _ _ => .ok ()
    reconcileReferencedObject := fun _ _ => .ok ()
    reconcileControlPlane := fun _ _ => .ok ()
    Reconcile := fun _ _ => .ok () }

/-- Reconciler methods that all fail. -/
def demoFailingTargets : Targets demoWorld :=
  { reconcileMachineHealthCheck := fun _ _ _ => .error "reconcile failed"
    reconcileReferencedObject := fun _ _ => .error "reconcile failed"
    reconcileControlPlane := fun _ _ => .error "reconcile failed"
    Reconcile := fun _ _ => .error "reconcile failed" }

/-- Every call of `reconcileControlPlane` panics; no other call does. -/
def demoPanics : Event demoWorld → Bool :=
  fun e => e.target? == some Target.reconcileControlPlane

/-! ## Validators -/

theorem Object.has_iff (m : Object) (key : String) :
    m.has key = true ↔ ∃ kvs v, m = some kvs ∧ (key, v) ∈ kvs := by
  cases m with
  | none => simp [Object.has]
  | some kvs =>
    simp only [Object.has, List.any_eq_true, beq_iff_eq, Option.some.injEq]
    constructor
    · rintro ⟨⟨k, v⟩, hmem, hk⟩
      exact ⟨kvs, v, rfl, by simpa [← hk] using hmem⟩
    · rintro ⟨kvs2, v, rfl, hmem⟩
      exact ⟨(key, v), hmem, rfl⟩

theorem validateUnstructured_ok_iff_has (u : Unstructured) :
    validateUnstructured u = .ok () ↔
      (u.Object.has "kind" = true ∧ u.Object.has "apiVersion" = true ∧
        u.Object.has "spec" = true ∧ u.Object.has "status" = true) := by
  unfold validateUnstructured
  cases u.Object.has "kind" <;> cases u.Object.has "apiVersion" <;>
    cases u.Object.has "spec" <;> cases u.Object.has "status" <;> simp

theorem validateUnstructured_ok_iff_keys (u : Unstructured) :
    validateUnstructured u = .ok () ↔
      ∀ key ∈ ["kind", "apiVersion", "spec", "status"],
        ∃ kvs v, u.Object = some kvs ∧ (key, v) ∈ kvs := by
  rw [validateUnstructured_ok_iff_has]
  simp only [Object.has_iff, List.mem_cons, List.mem_singleton, forall_eq_or_imp, forall_eq,
    List.not_mem_nil, false_implies, implies_true, and_true, IsEmpty.forall_iff]

theorem validateUnstructured_error_iff_keys (u : Unstructured) :
    (∃ e, validateUnstructured u = .error e) ↔
      ∃ key ∈ ["kind", "apiVersion", "spec", "status"],
        ∀ kvs v, u.Object = some kvs → (key, v) ∉ kvs := by
  have h := validateUnstructured_ok_iff_keys u
  constructor
  · rintro ⟨e, he⟩
    have hn : ¬ validateUnstructured u = .ok () := by rw [he]; simp
    rw [h] at hn
    push_neg at hn
    exact hn
  · intro hk
    have hn : ¬ validateUnstructured u = .ok () := by
      rw [h]; push_neg; exact hk
    cases hv : validateUnstructured u with
    | error e => exact ⟨e, rfl⟩
    | ok x => exact absurd hv hn

/-- C1. `validateUnstructured` returns no error exactly when the object map
holds an entry for each of the keys kind, apiVersion, spec and status, whatever
the values and the other keys; the nil map and the empty map are rejected. -/
theorem validateUnstructured_spec (u : Unstructured) :
    (validateUnstructured u = .ok () ↔
      ∀ key ∈ ["kind", "apiVersion", "spec", "status"],
        ∃ kvs v, u.Object = some kvs ∧ (key, v) ∈ kvs) ∧
    (∃ e, validateUnstructured { Object := none } = .error e) ∧
    (∃ e, validateUnstructured { Object := some [] } = .error e) :=
  ⟨validateUnstructured_ok_iff_keys u, ⟨_, rfl⟩, ⟨_, rfl⟩⟩

theorem validateBlueprint_ok_iff {W : World} (b : ClusterBlueprint W) :
    validateBlueprint b = .ok () ↔
      ∃ cc mi, b.ClusterClass = some cc ∧
        cc.Spec.ControlPlane.MachineInfrastructure = some mi := by
  unfold validateBlueprint
  cases hcc : b.ClusterClass with
  | none => simp
  | some cc =>
    cases hmi : cc.Spec.ControlPlane.MachineInfrastructure with
    | none => simp [hmi]
    | some mi => simp [hmi]

/-- C2. `validateBlueprint` accepts a blueprint exactly when its ClusterClass is
non-nil and that class has a non-nil control-plane MachineInfrastructure; every
other blueprint is rejected with an error. -/
theorem validateBlueprint_spec {W : World} (b : ClusterBlueprint W) :
    (validateBlueprint b = .ok () ↔
      ∃ cc mi, b.ClusterClass = some cc ∧
        cc.Spec.ControlPlane.MachineInfrastructure = some mi) ∧
    ((∃ e, validateBlueprint b = .error e) ↔
      ¬ ∃ cc mi, b.ClusterClass = some cc ∧
        cc.Spec.ControlPlane.MachineInfrastructure = some mi) := by
  unfold validateBlueprint
  cases hcc : b.ClusterClass with
  | none => simp
  | some cc =>
    cases hmi : cc.Spec.ControlPlane.MachineInfrastructure with
    | none => simp [hmi]
    | some mi => simp [hmi]

/-! ## Entry points -/

theorem orReturn0_error {W : World} {α : Type} (s : Step) (e : String) (st : PkgState)
    (k : α → Outcome W) :
    orReturn0 s (.error e) st k = { ret := 0, st := st, trace := [Event.step s false] } := rfl

theorem orReturn0_ok {W : World} {α : Type} (s : Step) (a : α) (st : PkgState)
    (k : α → Outcome W) :
    orReturn0 s (.ok a) st k = { k a with trace := Event.step s true :: (k a).trace } := rfl

/-- C3. In `FuzzreconcileControlPlane`, a generated blueprint that
`validateBlueprint` rejects makes the function return 0 with no call of
`reconcileControlPlane`; and every call of `reconcileControlPlane` receives a
scope whose Blueprint has a non-nil ClusterClass with a non-nil control-plane
MachineInfrastructure. -/
theorem FuzzreconcileControlPlane_blueprint_gate {W : World} (G : Gen W) (T : Targets W)
    (data : List Nat) (st : PkgState) :
    (∀ cluster f1 desiredCluster f2 bp f3,
      G.GenerateCluster (G.NewConsumer data) = .ok (cluster, f1) →
      G.GenerateCluster f1 = .ok (desiredCluster, f2) →
      G.GenerateClusterBlueprint f2 = .ok (bp, f3) →
      (∃ e, validateBlueprint bp = .error e) →
      (FuzzreconcileControlPlane G T data st).ret = 0 ∧
      invocations Target.reconcileControlPlane (FuzzreconcileControlPlane G T data st).trace = 0) ∧
    (∀ r s, Event.reconcileControlPlane r s ∈ (FuzzreconcileControlPlane G T data st).trace →
      ∃ sc bp cc mi, s = some sc ∧ sc.Blueprint = some bp ∧ bp.ClusterClass = some cc ∧
        cc.Spec.ControlPlane.MachineInfrastructure = some mi) := by
  constructor
  · rintro cluster f1 desiredCluster f2 bp f3 h1 h2 h3 ⟨e, he⟩
    simp [FuzzreconcileControlPlane, h1, h2, h3, he, orReturn0_ok, orReturn0_error, invocations,
      Event.target?]
  · intro r s hmem
    unfold FuzzreconcileControlPlane at hmem
    rcases h1 : G.GenerateCluster (G.NewConsumer data) with e | ⟨cluster, f1⟩
    · simp [h1, orReturn0_error] at hmem
    rcases h2 : G.GenerateCluster f1 with e | ⟨desiredCluster, f2⟩
    · simp [h1, h2, orReturn0_ok, orReturn0_error] at hmem
    rcases h3 : G.GenerateClusterBlueprint f2 with e | ⟨bp, f3⟩
    · simp [h1, h2, h3, orReturn0_ok, orReturn0_error] at hmem
    rcases h4 : validateBlueprint bp with e | u
    · simp [h1, h2, h3, h4, orReturn0_ok, orReturn0_error] at hmem
    obtain ⟨cc, mi, hcc, hmi⟩ := (validateBlueprint_ok_iff bp).1 h4
    simp only [h1, h2, h3, h4, orReturn0_ok, List.mem_cons, List.mem_append, List.cons_append,
      List.nil_append, reduceCtorEq, false_or] at hmem
    rcases hmem with heq | hp
    · injection heq with _ hs
      exact ⟨_, bp, cc, mi, hs, rfl, hcc, hmi⟩
    · split at hp <;> simp at hp

/-- Witness for C3: on `[7, 8, 1, 0]` the blueprint has a ClusterClass without
MachineInfrastructure, so the call returns 0 and the reconciler is not called;
on `[7, 8, 1, 5]` the reconciler is called, with a valid blueprint. -/
theorem FuzzreconcileControlPlane_blueprint_gate_witness :
    ((FuzzreconcileControlPlane demoGen demoTargets [7, 8, 1, 0] PkgState.initial).ret = 0 ∧
      invocations Target.reconcileControlPlane
        (FuzzreconcileControlPlane demoGen demoTargets [7, 8, 1, 0] PkgState.initial).trace = 0) ∧
    (invocations Target.reconcileControlPlane
        (FuzzreconcileControlPlane demoGen demoTargets [7, 8, 1, 5] PkgState.initial).trace = 1 ∧
      ∀ r s, Event.reconcileControlPlane r s ∈
          (FuzzreconcileControlPlane demoGen demoTargets [7, 8, 1, 5] PkgState.initial).trace →
        ∃ sc bp cc mi, s = some sc ∧ sc.Blueprint = some bp ∧ bp.ClusterClass = some cc ∧
          cc.Spec.ControlPlane.MachineInfrastructure = some mi) :=
  ⟨(FuzzreconcileControlPlane_blueprint_gate demoGen demoTargets [7, 8, 1, 0] PkgState.initial).1
      (7 : Nat) [8, 1, 0] (8 : Nat) [1, 0]
      { ClusterClass := some { Spec := { ControlPlane := { MachineInfrastructure := none } } },
        rest := () } [] rfl rfl rfl ⟨_, rfl⟩,
   rfl,
   (FuzzreconcileControlPlane_blueprint_gate demoGen demoTargets [7, 8, 1, 5] PkgState.initial).2⟩

/-- C4. In `FuzzClusterReconcile`, a decoded document that lacks one of the
keys kind, apiVersion, spec, status makes the function return 0 with no fake
client built and no call of `Reconcile`; and every call of `Reconcile` uses a
client, built before it, whose seeded documents all pass
`validateUnstructured` (and there is such a document). -/
theorem FuzzClusterReconcile_fail_fast {W : World} (G : Gen W) (T : Targets W)
    (data : List Nat) (st : PkgState) :
    (∀ unstr f1,
      GetUnstructured G (G.NewConsumer data) = .ok (unstr, f1) →
      (∃ key ∈ ["kind", "apiVersion", "spec", "status"],
        ∀ kvs v, unstr.Object = some kvs → (key, v) ∉ kvs) →
      (FuzzClusterReconcile G T data st).ret = 0 ∧
      (∀ c, Event.fakeClientBuild c ∉ (FuzzClusterReconcile G T data st).trace) ∧
      invocations Target.Reconcile (FuzzClusterReconcile G T data st).trace = 0) ∧
    (∀ r req, Event.Reconcile r req ∈ (FuzzClusterReconcile G T data st).trace →
      ∃ c, r.Client = some c ∧
        (∃ before after, (FuzzClusterReconcile G T data st).trace =
          before ++ Event.fakeClientBuild c :: after ∧ Event.Reconcile r req ∈ after) ∧
        (∃ u, SeedObject.unstructured u ∈ c.objects) ∧
        ∀ u, SeedObject.unstructured u ∈ c.objects → validateUnstructured u = .ok ()) := by
  constructor
  · rintro unstr f1 h1 hbad
    obtain ⟨e, he⟩ := (validateUnstructured_error_iff_keys unstr).2 hbad
    simp [FuzzClusterReconcile, h1, he, orReturn0_ok, orReturn0_error, invocations,
      Event.target?]
  · intro r req hmem
    unfold FuzzClusterReconcile at hmem ⊢
    rcases h1 : GetUnstructured G (G.NewConsumer data) with e | ⟨unstr, f1⟩
    · simp [h1, orReturn0_error] at hmem
    rcases h2 : validateUnstructured unstr with e | u
    · simp [h1, h2, orReturn0_ok, orReturn0_error] at hmem
    rcases h3 : G.GenerateCluster f1 with e | ⟨cluster, f2⟩
    · simp [h1, h2, h3, orReturn0_ok, orReturn0_error] at hmem
    rcases h4 : G.GenerateNode f2 with e | ⟨node, f3⟩
    · simp [h1, h2, h3, h4, orReturn0_ok, orReturn0_error] at hmem
    simp only [h1, h2, h3, h4, orReturn0_ok, List.mem_cons, List.mem_singleton, reduceCtorEq,
      false_or, List.not_mem_nil, or_false] at hmem
    injection hmem with hr hreq
    subst hr hreq
    refine ⟨_, rfl, ⟨[Event.step Step.GetUnstructured true,
      Event.step Step.validateUnstructured true, Event.step Step.GenerateStruct true,
      Event.step Step.GenerateStruct true], [_], ?_, List.mem_singleton.2 rfl⟩,
      ⟨unstr, by simp⟩, ?_⟩
    · simp [h1, h2, h3, h4, orReturn0_ok]
    · intro u hu
      simp only [List.mem_cons, List.mem_singleton, reduceCtorEq, false_or, List.not_mem_nil,
        or_false, SeedObject.unstructured.injEq] at hu
      subst hu
      exact h2

/-- Witness for C4: on `[0, 3, 4]` the document has the single key `a`, so the
call returns 0 before any client is built; on `[1, 3, 4]` the document has the
four keys and `Reconcile` runs on a client seeded with it. -/
theorem FuzzClusterReconcile_fail_fast_witness :
    ((FuzzClusterReconcile demoGen demoTargets [0, 3, 4] PkgState.initial).ret = 0 ∧
      (∀ c, Event.fakeClientBuild c ∉
        (FuzzClusterReconcile demoGen demoTargets [0, 3, 4] PkgState.initial).trace) ∧
      invocations Target.Reconcile
        (FuzzClusterReconcile demoGen demoTargets [0, 3, 4] PkgState.initial).trace = 0) ∧
    (invocations Target.Reconcile
        (FuzzClusterReconcile demoGen demoTargets [1, 3, 4] PkgState.initial).trace = 1 ∧
      ∀ r req, Event.Reconcile r req ∈
          (FuzzClusterReconcile demoGen demoTargets [1, 3, 4] PkgState.initial).trace →
        ∃ c, r.Client = some c ∧
          (∃ before after,
            (FuzzClusterReconcile demoGen demoTargets [1, 3, 4] PkgState.initial).trace =
              before ++ Event.fakeClientBuild c :: after ∧ Event.Reconcile r req ∈ after) ∧
          (∃ u, SeedObject.unstructured u ∈ c.objects) ∧
          ∀ u, SeedObject.unstructured u ∈ c.objects → validateUnstructured u = .ok ()) :=
  ⟨(FuzzClusterReconcile_fail_fast demoGen demoTargets [0, 3, 4] PkgState.initial).1
      { Object := some [("a", Value.number 1)] } [3, 4] rfl
      ⟨"kind", by simp, by
        intro kvs v h
        injection h with h
        subst h
        simp⟩,
   rfl,
   (FuzzClusterReconcile_fail_fast demoGen demoTargets [1, 3, 4] PkgState.initial).2⟩

/-- C7. Every call of `reconcileReferencedObject` made by
`FuzzreconcileReferencedObject` carries options that do not depend on the fuzz
data, namely one `AuthoritativePaths` holding the single path
spec.machineTemplate.metadata, and its cluster, current and desired fields are
the values generated from the fuzz data in that order. -/
theorem FuzzreconcileReferencedObject_input {W : World} (G : Gen W) (T : Targets W)
    (data : List Nat) (st : PkgState) (r : Reconciler W)
    (input : reconcileReferencedObjectInput W)
    (hcall : Event.reconcileReferencedObject r input ∈
      (FuzzreconcileReferencedObject G T data st).trace) :
    input.opts = [HelperOption.AuthoritativePaths [["spec", "machineTemplate", "metadata"]]] ∧
    ∃ cluster f1 current f2 desired f3,
      G.GenerateCluster (G.NewConsumer data) = .ok (cluster, f1) ∧
      GetUnstructured G f1 = .ok (current, f2) ∧
      GetUnstructured G f2 = .ok (desired, f3) ∧
      input.cluster = some cluster ∧ input.current = some current ∧
      input.desired = some desired := by
  unfold FuzzreconcileReferencedObject at hcall
  rcases h1 : G.GenerateCluster (G.NewConsumer data) with e | ⟨cluster, f1⟩
  · simp [h1, orReturn0_error] at hcall
  rcases h2 : GetUnstructured G f1 with e | ⟨current, f2⟩
  · simp [h1, h2, orReturn0_ok, orReturn0_error] at hcall
  rcases h3 : GetUnstructured G f2 with e | ⟨desired, f3⟩
  · simp [h1, h2, h3, orReturn0_ok, orReturn0_error] at hcall
  simp only [h1, h2, h3, orReturn0_ok, List.mem_cons, List.mem_singleton, reduceCtorEq,
    false_or, List.not_mem_nil, or_false] at hcall
  injection hcall with hr hin
  subst hin
  exact ⟨rfl, cluster, f1, current, f2, desired, f3, rfl, h2, h3, rfl, rfl, rfl⟩

/-- Witness for C7 on the fuzz data `[9, 0, 1]`: the cluster is generated from
the byte 9, the current document from the byte 0, the desired one from 1. -/
theorem FuzzreconcileReferencedObject_input_witness :
    ∃ r input,
      Event.reconcileReferencedObject r input ∈
        (FuzzreconcileReferencedObject demoGen demoTargets [9, 0, 1] PkgState.initial).trace ∧
      input.cluster = some (9 : Nat) ∧
      input.opts = [HelperOption.AuthoritativePaths [["spec", "machineTemplate", "metadata"]]] ∧
      ∃ cluster f1 current f2 desired f3,
        demoGen.GenerateCluster (demoGen.NewConsumer [9, 0, 1]) = .ok (cluster, f1) ∧
        GetUnstructured demoGen f1 = .ok (current, f2) ∧
        GetUnstructured demoGen f2 = .ok (desired, f3) ∧
        input.cluster = some cluster ∧ input.current = some current ∧
        input.desired = some desired :=
  ⟨{ Client := some { scheme := some [], objects := [] }, APIReader := none, recorder := some 32 },
   { cluster := some (9 : Nat),
     current := some { Object := some [("a", Value.number 1)] },
     desired := some { Object := some [("kind", Value.string "Cluster"),
       ("apiVersion", Value.string "v1"), ("spec", Value.number 1), ("status", Value.number 2)] },
     opts := [HelperOption.AuthoritativePaths [controlPlaneMachineTemplateMetadataPath]] },
   List.Mem.tail _ (List.Mem.tail _ (List.Mem.tail _ (List.Mem.tail _ (List.Mem.head _)))),
   rfl,
   FuzzreconcileReferencedObject_input demoGen demoTargets [9, 0, 1] PkgState.initial _ _
     (List.Mem.tail _ (List.Mem.tail _ (List.Mem.tail _ (List.Mem.tail _ (List.Mem.head _)))))⟩

theorem orReturn0_contract {W : World} {α : Type} (t : Target) (s : Step)
    (r : Except String α) (st : PkgState) (k : α → Outcome W)
    (pre : List (Event W)) (hpre : ∀ e ∈ pre, e = Event.initFunc)
    (hk : ∀ a, ((k a).ret = 0 ∨ (k a).ret = 1) ∧
      ((k a).ret = 1 ↔ invocations t (pre ++ (k a).trace) = 1) ∧
      ((k a).ret = 0 ↔ ∃ s, Event.step s false ∈ pre ++ (k a).trace) ∧
      ((k a).ret = 0 → ∀ t2, invocations t2 (pre ++ (k a).trace) = 0)) :
    ((orReturn0 s r st k).ret = 0 ∨ (orReturn0 s r st k).ret = 1) ∧
    ((orReturn0 s r st k).ret = 1 ↔ invocations t (pre ++ (orReturn0 s r st k).trace) = 1) ∧
    ((orReturn0 s r st k).ret = 0 ↔
      ∃ s2, Event.step s2 false ∈ pre ++ (orReturn0 s r st k).trace) ∧
    ((orReturn0 s r st k).ret = 0 →
      ∀ t2, invocations t2 (pre ++ (orReturn0 s r st k).trace) = 0) := by
  have hpre0 : ∀ t2, List.countP (fun e : Event W => e.target? == some t2) pre = 0 := by
    intro t2
    rw [List.countP_eq_zero]
    intro e he
    rw [hpre e he]
    simp [Event.target?]
  cases r with
  | error e =>
    simp only [orReturn0_error, invocations, List.countP_append, hpre0]
    simp [Event.target?]
  | ok a =>
    obtain ⟨h1, h2, h3, h4⟩ := hk a
    simp only [invocations, List.countP_append, hpre0, List.mem_append, zero_add] at h2 h3 h4
    simp only [orReturn0_ok, invocations, List.countP_append, hpre0, List.mem_append,
      List.mem_cons, zero_add]
    refine ⟨h1, ?_, ?_, ?_⟩
    · rw [h2]; simp [Event.target?]
    · rw [h3]; simp
    · intro h0 t2
      have := h4 h0 t2
      simpa [Event.target?] using this

theorem orReturn0_ret_congr {W : World} {α : Type} (s : Step) (r : Except String α)
    (st : PkgState) (k k2 : α → Outcome W) (hk : ∀ a, (k a).ret = (k2 a).ret) :
    (orReturn0 s r st k).ret = (orReturn0 s r st k2).ret := by
  cases r with
  | error e => rfl
  | ok a => exact hk a

/-- When every call returns, an entry point returns 0 or 1; it returns 1
exactly when its reconciler method was called once; it returns 0 exactly when
its trace records a failed generation or validation call, and then no
reconciler method was called at all; and the return value does not depend on
what the reconciler methods return. -/
theorem EntryPoint_call_contract {W : World} (ep : EntryPoint) (G : Gen W) (T : Targets W)
    (data : List Nat) (st : PkgState) :
    ((ep.call G T data st).ret = 0 ∨ (ep.call G T data st).ret = 1) ∧
    ((ep.call G T data st).ret = 1 ↔ invocations ep.target (ep.call G T data st).trace = 1) ∧
    ((ep.call G T data st).ret = 0 ↔ ∃ s, Event.step s false ∈ (ep.call G T data st).trace) ∧
    ((ep.call G T data st).ret = 0 → ∀ t, invocations t (ep.call G T data st).trace = 0) ∧
    (∀ T2 : Targets W, (ep.call G T2 data st).ret = (ep.call G T data st).ret) := by
  have hnil : ∀ e ∈ ([] : List (Event W)), e = Event.initFunc := by simp
  have h4 : ((ep.call G T data st).ret = 0 ∨ (ep.call G T data st).ret = 1) ∧
      ((ep.call G T data st).ret = 1 ↔
        invocations ep.target ([] ++ (ep.call G T data st).trace) = 1) ∧
      ((ep.call G T data st).ret = 0 ↔
        ∃ s, Event.step s false ∈ [] ++ (ep.call G T data st).trace) ∧
      ((ep.call G T data st).ret = 0 →
        ∀ t, invocations t ([] ++ (ep.call G T data st).trace) = 0) := by
    cases ep
    · have hpre : ∀ e ∈ (initterDo W st).2, e = Event.initFunc := by
        unfold initterDo
        split <;> simp
      simp only [EntryPoint.call, EntryPoint.target, FuzzreconcileMachineHealthCheck,
        List.nil_append]
      refine orReturn0_contract _ _ _ _ _ _ hpre (fun ⟨current, f1⟩ => ?_)
      refine orReturn0_contract _ _ _ _ _ _ hpre (fun ⟨desired, f2⟩ => ?_)
      have hpre0 : ∀ t2, List.countP (fun e : Event W => e.target? == some t2)
          (initterDo W st).2 = 0 := by
        intro t2
        rw [List.countP_eq_zero]
        intro e he
        rw [hpre e he]
        simp [Event.target?]
      simp only [invocations, List.countP_append, hpre0, List.mem_append]
      refine ⟨Or.inr trivial, by simp [Event.target?], ?_, by simp⟩
      simp only [one_ne_zero, false_iff, not_exists, not_or]
      intro s
      refine ⟨fun h => ?_, by simp⟩
      have := hpre _ h
      simp at this
    · simp only [EntryPoint.call, EntryPoint.target, FuzzreconcileReferencedObject]
      refine orReturn0_contract _ _ _ _ _ [] hnil (fun ⟨cluster, f1⟩ => ?_)
      refine orReturn0_contract _ _ _ _ _ [] hnil (fun ⟨current, f2⟩ => ?_)
      refine orReturn0_contract _ _ _ _ _ [] hnil (fun ⟨desired, f3⟩ => ?_)
      simp [invocations, Event.target?]
    · simp only [EntryPoint.call, EntryPoint.target, FuzzreconcileControlPlane]
      refine orReturn0_contract _ _ _ _ _ [] hnil (fun ⟨cluster, f1⟩ => ?_)
      refine orReturn0_contract _ _ _ _ _ [] hnil (fun ⟨desiredCluster, f2⟩ => ?_)
      refine orReturn0_contract _ _ _ _ _ [] hnil (fun ⟨bp, f3⟩ => ?_)
      refine orReturn0_contract _ _ _ _ _ [] hnil (fun _ => ?_)
      split <;> simp [invocations, Event.target?]
    · simp only [EntryPoint.call, EntryPoint.target, FuzzClusterReconcile]
      refine orReturn0_contract _ _ _ _ _ [] hnil (fun ⟨unstr, f1⟩ => ?_)
      refine orReturn0_contract _ _ _ _ _ [] hnil (fun _ => ?_)
      refine orReturn0_contract _ _ _ _ _ [] hnil (fun ⟨cluster, f2⟩ => ?_)
      refine orReturn0_contract _ _ _ _ _ [] hnil (fun ⟨node, f3⟩ => ?_)
      simp [invocations, Event.target?]
  have h5 : ∀ T2 : Targets W, (ep.call G T2 data st).ret = (ep.call G T data st).ret := by
    intro T2
    cases ep
    · rfl
    · rfl
    · simp only [EntryPoint.call, FuzzreconcileControlPlane]
      refine orReturn0_ret_congr _ _ _ _ _ (fun ⟨cluster, f1⟩ => ?_)
      refine orReturn0_ret_congr _ _ _ _ _ (fun ⟨desiredCluster, f2⟩ => ?_)
      refine orReturn0_ret_congr _ _ _ _ _ (fun ⟨bp, f3⟩ => ?_)
      refine orReturn0_ret_congr _ _ _ _ _ (fun _ => ?_)
      rfl
    · rfl
  exact ⟨h4.1, h4.2.1, h4.2.2.1, h4.2.2.2, h5⟩

/-- When every call returns, an entry point returns 1 exactly when each of
its generation and validation calls, made in program order on the consumer
left by the one before, returned without error. -/
theorem EntryPoint_call_ret_one_iff {W : World} (ep : EntryPoint) (G : Gen W) (T : Targets W)
    (data : List Nat) (st : PkgState) :
    (ep.call G T data st).ret = 1 ↔
      match ep with
      | .FuzzreconcileMachineHealthCheck =>
        ∃ current f1 desired f2,
          G.GenerateMachineHealthCheck (G.NewConsumer data) = .ok (current, f1) ∧
          G.GenerateMachineHealthCheck f1 = .ok (desired, f2)
      | .FuzzreconcileReferencedObject =>
        ∃ cluster f1 current f2 desired f3,
          G.GenerateCluster (G.NewConsumer data) = .ok (cluster, f1) ∧
          GetUnstructured G f1 = .ok (current, f2) ∧
          GetUnstructured G f2 = .ok (desired, f3)
      | .FuzzreconcileControlPlane =>
        ∃ cluster f1 desiredCluster f2 bp f3,
          G.GenerateCluster (G.NewConsumer data) = .ok (cluster, f1) ∧
          G.GenerateCluster f1 = .ok (desiredCluster, f2) ∧
          G.GenerateClusterBlueprint f2 = .ok (bp, f3) ∧
          validateBlueprint bp = .ok ()
      | .FuzzClusterReconcile =>
        ∃ unstr f1 cluster f2 node f3,
          GetUnstructured G (G.NewConsumer data) = .ok (unstr, f1) ∧
          validateUnstructured unstr = .ok () ∧
          G.GenerateCluster f1 = .ok (cluster, f2) ∧
          G.GenerateNode f2 = .ok (node, f3) := by
  cases ep
  · simp only [EntryPoint.call, FuzzreconcileMachineHealthCheck]
    rcases h1 : G.GenerateMachineHealthCheck (G.NewConsumer data) with e | ⟨current, f1⟩
    · simp [h1, orReturn0_error]
    rcases h2 : G.GenerateMachineHealthCheck f1 with e | ⟨desired, f2⟩
    · simp [h1, h2, orReturn0_ok, orReturn0_error, and_assoc]
    simp [h1, h2, orReturn0_ok, and_assoc]
  · simp only [EntryPoint.call, FuzzreconcileReferencedObject]
    rcases h1 : G.GenerateCluster (G.NewConsumer data) with e | ⟨cluster, f1⟩
    · simp [h1, orReturn0_error]
    rcases h2 : GetUnstructured G f1 with e | ⟨current, f2⟩
    · simp [h1, h2, orReturn0_ok, orReturn0_error, and_assoc]
    rcases h3 : GetUnstructured G f2 with e | ⟨desired, f3⟩
    · simp [h1, h2, h3, orReturn0_ok, orReturn0_error, and_assoc]
    simp [h1, h2, h3, orReturn0_ok, and_assoc]
  · simp only [EntryPoint.call, FuzzreconcileControlPlane]
    rcases h1 : G.GenerateCluster (G.NewConsumer data) with e | ⟨cluster, f1⟩
    · simp [h1, orReturn0_error]
    rcases h2 : G.GenerateCluster f1 with e | ⟨desiredCluster, f2⟩
    · simp [h1, h2, orReturn0_ok, orReturn0_error, and_assoc]
    rcases h3 : G.GenerateClusterBlueprint f2 with e | ⟨bp, f3⟩
    · simp [h1, h2, h3, orReturn0_ok, orReturn0_error, and_assoc]
    rcases h4 : validateBlueprint bp with e | u
    · simp [h1, h2, h3, h4, orReturn0_ok, orReturn0_error, and_assoc]
    simp [h1, h2, h3, h4, orReturn0_ok, and_assoc]
  · simp only [EntryPoint.call, FuzzClusterReconcile]
    rcases h1 : GetUnstructured G (G.NewConsumer data) with e | ⟨unstr, f1⟩
    · simp [h1, orReturn0_error]
    rcases h2 : validateUnstructured unstr with e | u
    · simp [h1, h2, orReturn0_ok, orReturn0_error, and_assoc]
    rcases h3 : G.GenerateCluster f1 with e | ⟨cluster, f2⟩
    · simp [h1, h2, h3, orReturn0_ok, orReturn0_error, and_assoc]
    rcases h4 : G.GenerateNode f2 with e | ⟨node, f3⟩
    · simp [h1, h2, h3, h4, orReturn0_ok, orReturn0_error, and_assoc]
    simp [h1, h2, h3, h4, orReturn0_ok, and_assoc]

/-- When every call returns, an entry point returns 0 exactly when one of its
generation and validation calls returned an error, the calls before it having
returned without error. -/
theorem EntryPoint_call_ret_zero_iff {W : World} (ep : EntryPoint) (G : Gen W) (T : Targets W)
    (data : List Nat) (st : PkgState) :
    (ep.call G T data st).ret = 0 ↔
      match ep with
      | .FuzzreconcileMachineHealthCheck =>
        (∃ e, G.GenerateMachineHealthCheck (G.NewConsumer data) = .error e) ∨
        ∃ current f1, G.GenerateMachineHealthCheck (G.NewConsumer data) = .ok (current, f1) ∧
          ∃ e, G.GenerateMachineHealthCheck f1 = .error e
      | .FuzzreconcileReferencedObject =>
        (∃ e, G.GenerateCluster (G.NewConsumer data) = .error e) ∨
        ∃ cluster f1, G.GenerateCluster (G.NewConsumer data) = .ok (cluster, f1) ∧
          ((∃ e, GetUnstructured G f1 = .error e) ∨
           ∃ current f2, GetUnstructured G f1 = .ok (current, f2) ∧
             ∃ e, GetUnstructured G f2 = .error e)
      | .FuzzreconcileControlPlane =>
        (∃ e, G.GenerateCluster (G.NewConsumer data) = .error e) ∨
        ∃ cluster f1, G.GenerateCluster (G.NewConsumer data) = .ok (cluster, f1) ∧
          ((∃ e, G.GenerateCluster f1 = .error e) ∨
           ∃ desiredCluster f2, G.GenerateCluster f1 = .ok (desiredCluster, f2) ∧
             ((∃ e, G.GenerateClusterBlueprint f2 = .error e) ∨
              ∃ bp f3, G.GenerateClusterBlueprint f2 = .ok (bp, f3) ∧
                ∃ e, validateBlueprint bp = .error e))
      | .FuzzClusterReconcile =>
        (∃ e, GetUnstructured G (G.NewConsumer data) = .error e) ∨
        ∃ unstr f1, GetUnstructured G (G.NewConsumer data) = .ok (unstr, f1) ∧
          ((∃ e, validateUnstructured unstr = .error e) ∨
           (validateUnstructured unstr = .ok () ∧
             ((∃ e, G.GenerateCluster f1 = .error e) ∨
              ∃ cluster f2, G.GenerateCluster f1 = .ok (cluster, f2) ∧
                ∃ e, G.GenerateNode f2 = .error e))) := by
  cases ep
  · simp only [EntryPoint.call, FuzzreconcileMachineHealthCheck]
    rcases h1 : G.GenerateMachineHealthCheck (G.NewConsumer data) with e | ⟨current, f1⟩
    · simp [h1, orReturn0_error]
    rcases h2 : G.GenerateMachineHealthCheck f1 with e | ⟨desired, f2⟩
    · simp [h1, h2, orReturn0_ok, orReturn0_error, and_assoc]
    simp [h1, h2, orReturn0_ok, and_assoc]
  · simp only [EntryPoint.call, FuzzreconcileReferencedObject]
    rcases h1 : G.GenerateCluster (G.NewConsumer data) with e | ⟨cluster, f1⟩
    · simp [h1, orReturn0_error]
    rcases h2 : GetUnstructured G f1 with e | ⟨current, f2⟩
    · simp [h1, h2, orReturn0_ok, orReturn0_error, and_assoc]
    rcases h3 : GetUnstructured G f2 with e | ⟨desired, f3⟩
    · simp [h1, h2, h3, orReturn0_ok, orReturn0_error, and_assoc]
    simp [h1, h2, h3, orReturn0_ok, and_assoc]
  · simp only [EntryPoint.call, FuzzreconcileControlPlane]
    rcases h1 : G.GenerateCluster (G.NewConsumer data) with e | ⟨cluster, f1⟩
    · simp [h1, orReturn0_error]
    rcases h2 : G.GenerateCluster f1 with e | ⟨desiredCluster, f2⟩
    · simp [h1, h2, orReturn0_ok, orReturn0_error, and_assoc]
    rcases h3 : G.GenerateClusterBlueprint f2 with e | ⟨bp, f3⟩
    · simp [h1, h2, h3, orReturn0_ok, orReturn0_error, and_assoc]
    rcases h4 : validateBlueprint bp with e | u
    · simp [h1, h2, h3, h4, orReturn0_ok, orReturn0_error, and_assoc]
    simp [h1, h2, h3, h4, orReturn0_ok, and_assoc]
  · simp only [EntryPoint.call, FuzzClusterReconcile]
    rcases h1 : GetUnstructured G (G.NewConsumer data) with e | ⟨unstr, f1⟩
    · simp [h1, orReturn0_error]
    rcases h2 : validateUnstructured unstr with e | u
    · simp [h1, h2, orReturn0_ok, orReturn0_error, and_assoc]
    rcases h3 : G.GenerateCluster f1 with e | ⟨cluster, f2⟩
    · simp [h1, h2, h3, orReturn0_ok, orReturn0_error, and_assoc]
    rcases h4 : G.GenerateNode f2 with e | ⟨node, f3⟩
    · simp [h1, h2, h3, h4, orReturn0_ok, orReturn0_error, and_assoc]
    simp [h1, h2, h3, h4, orReturn0_ok, and_assoc]

theorem cutAtPanic_some_mem {W : World} (panics : Event W → Bool) (l t : List (Event W))
    (h : cutAtPanic panics l = some t) : ∃ e ∈ t, panics e = true := by
  induction l generalizing t with
  | nil => simp [cutAtPanic] at h
  | cons e rest ih =>
    unfold cutAtPanic at h
    by_cases hp : panics e = true
    · rw [if_pos hp] at h
      injection h with h
      subst h
      exact ⟨e, List.mem_singleton.2 rfl, hp⟩
    · rw [if_neg hp] at h
      cases hr : cutAtPanic panics rest with
      | none => simp [hr] at h
      | some t2 =>
        simp only [hr, Option.some.injEq] at h
        subst h
        obtain ⟨e2, he2, hp2⟩ := ih t2 hr
        exact ⟨e2, List.mem_cons_of_mem _ he2, hp2⟩

/-- When no call on the trace of a run panics, the run is the entry point
running to its `return`. -/
theorem EntryPoint_run_of_no_panic {W : World} (G : Gen W) (T : Targets W)
    (panics : Event W → Bool) (ep : EntryPoint) (data : List Nat) (st : PkgState)
    (hno : ∀ e ∈ (ep.run G T panics data st).trace, panics e = false) :
    ep.run G T panics data st =
      { ret := some (ep.call G T data st).ret, trace := (ep.call G T data st).trace } := by
  unfold EntryPoint.run at hno ⊢
  cases hc : cutAtPanic panics (ep.call G T data st).trace with
  | none => rfl
  | some t =>
    exfalso
    simp only [hc] at hno
    obtain ⟨e, he, hp⟩ := cutAtPanic_some_mem panics _ t hc
    rw [hno e he] at hp
    exact Bool.false_ne_true hp

/-- C8, as amended. Whenever none of the calls an entry point makes panics,
the entry point returns, and its return value `v` is 0 or 1; `v` is 1 exactly
when its reconciler method was called once, and exactly when each generation
and validation call returned without error; `v` is 0 exactly when a generation
or validation call returned an error, and then no reconciler method was called
at all; and `v` is the same whatever the reconciler methods return. -/
theorem EntryPoint_run_contract {W : World} (ep : EntryPoint) (G : Gen W) (T : Targets W)
    (panics : Event W → Bool) (data : List Nat) (st : PkgState) :
    (∀ e ∈ (ep.run G T panics data st).trace, panics e = false) →
    ∃ v, (ep.run G T panics data st).ret = some v ∧
    (v = 0 ∨ v = 1) ∧
    (v = 1 ↔ invocations ep.target (ep.run G T panics data st).trace = 1) ∧
    (v = 1 ↔
      match ep with
      | .FuzzreconcileMachineHealthCheck =>
        ∃ current f1 desired f2,
          G.GenerateMachineHealthCheck (G.NewConsumer data) = .ok (current, f1) ∧
          G.GenerateMachineHealthCheck f1 = .ok (desired, f2)
      | .FuzzreconcileReferencedObject =>
        ∃ cluster f1 current f2 desired f3,
          G.GenerateCluster (G.NewConsumer data) = .ok (cluster, f1) ∧
          GetUnstructured G f1 = .ok (current, f2) ∧
          GetUnstructured G f2 = .ok (desired, f3)
      | .FuzzreconcileControlPlane =>
        ∃ cluster f1 desiredCluster f2 bp f3,
          G.GenerateCluster (G.NewConsumer data) = .ok (cluster, f1) ∧
          G.GenerateCluster f1 = .ok (desiredCluster, f2) ∧
          G.GenerateClusterBlueprint f2 = .ok (bp, f3) ∧
          validateBlueprint bp = .ok ()
      | .FuzzClusterReconcile =>
        ∃ unstr f1 cluster f2 node f3,
          GetUnstructured G (G.NewConsumer data) = .ok (unstr, f1) ∧
          validateUnstructured unstr = .ok () ∧
          G.GenerateCluster f1 = .ok (cluster, f2) ∧
          G.GenerateNode f2 = .ok (node, f3)) ∧
    (v = 0 ↔ ∃ s, Event.step s false ∈ (ep.run G T panics data st).trace) ∧
    (v = 0 ↔
      match ep with
      | .FuzzreconcileMachineHealthCheck =>
        (∃ e, G.GenerateMachineHealthCheck (G.NewConsumer data) = .error e) ∨
        ∃ current f1, G.GenerateMachineHealthCheck (G.NewConsumer data) = .ok (current, f1) ∧
          ∃ e, G.GenerateMachineHealthCheck f1 = .error e
      | .FuzzreconcileReferencedObject =>
        (∃ e, G.GenerateCluster (G.NewConsumer data) = .error e) ∨
        ∃ cluster f1, G.GenerateCluster (G.NewConsumer data) = .ok (cluster, f1) ∧
          ((∃ e, GetUnstructured G f1 = .error e) ∨
           ∃ current f2, GetUnstructured G f1 = .ok (current, f2) ∧
             ∃ e, GetUnstructured G f2 = .error e)
      | .FuzzreconcileControlPlane =>
        (∃ e, G.GenerateCluster (G.NewConsumer data) = .error e) ∨
        ∃ cluster f1, G.GenerateCluster (G.NewConsumer data) = .ok (cluster, f1) ∧
          ((∃ e, G.GenerateCluster f1 = .error e) ∨
           ∃ desiredCluster f2, G.GenerateCluster f1 = .ok (desiredCluster, f2) ∧
             ((∃ e, G.GenerateClusterBlueprint f2 = .error e) ∨
              ∃ bp f3, G.GenerateClusterBlueprint f2 = .ok (bp, f3) ∧
                ∃ e, validateBlueprint bp = .error e))
      | .FuzzClusterReconcile =>
        (∃ e, GetUnstructured G (G.NewConsumer data) = .error e) ∨
        ∃ unstr f1, GetUnstructured G (G.NewConsumer data) = .ok (unstr, f1) ∧
          ((∃ e, validateUnstructured unstr = .error e) ∨
           (validateUnstructured unstr = .ok () ∧
             ((∃ e, G.GenerateCluster f1 = .error e) ∨
              ∃ cluster f2, G.GenerateCluster f1 = .ok (cluster, f2) ∧
                ∃ e, G.GenerateNode f2 = .error e)))) ∧
    (v = 0 → ∀ t, invocations t (ep.run G T panics data st).trace = 0) ∧
    (∀ T2 : Targets W, (∀ e ∈ (ep.run G T2 panics data st).trace, panics e = false) →
      (ep.run G T2 panics data st).ret = some v) := by
  intro hno
  have hrun := EntryPoint_run_of_no_panic G T panics ep data st hno
  obtain ⟨h1, h2, h3, h4, h5⟩ := EntryPoint_call_contract ep G T data st
  refine ⟨(ep.call G T data st).ret, by rw [hrun], h1, by rw [hrun]; exact h2,
    EntryPoint_call_ret_one_iff ep G T data st, by rw [hrun]; exact h3,
    EntryPoint_call_ret_zero_iff ep G T data st, by rw [hrun]; exact h4, ?_⟩
  intro T2 hno2
  rw [EntryPoint_run_of_no_panic G T2 panics ep data st hno2, h5 T2]

/-- Witness for C8 as amended: `FuzzreconcileReferencedObject` on `[9, 0, 1]`
calls no `reconcileControlPlane`, so under `demoPanics` nothing panics; it
returns 1 after one call of `reconcileReferencedObject`. -/
theorem EntryPoint_run_contract_witness :
    (EntryPoint.FuzzreconcileReferencedObject.run demoGen demoTargets demoPanics [9, 0, 1]
        PkgState.initial).ret = some 1 ∧
    (∀ e ∈ (EntryPoint.FuzzreconcileReferencedObject.run demoGen demoTargets demoPanics
        [9, 0, 1] PkgState.initial).trace, demoPanics e = false) ∧
    ∃ v, (EntryPoint.FuzzreconcileReferencedObject.run demoGen demoTargets demoPanics [9, 0, 1]
        PkgState.initial).ret = some v ∧
      (v = 0 ∨ v = 1) ∧
      (v = 1 ↔ invocations Target.reconcileReferencedObject
        (EntryPoint.FuzzreconcileReferencedObject.run demoGen demoTargets demoPanics [9, 0, 1]
          PkgState.initial).trace = 1) :=
  have hno : ∀ e ∈ (EntryPoint.FuzzreconcileReferencedObject.run demoGen demoTargets demoPanics
      [9, 0, 1] PkgState.initial).trace, demoPanics e = false := by
    intro e he
    have htrace : (EntryPoint.FuzzreconcileReferencedObject.run demoGen demoTargets demoPanics
        [9, 0, 1] PkgState.initial).trace =
        (FuzzreconcileReferencedObject demoGen demoTargets [9, 0, 1] PkgState.initial).trace :=
      rfl
    rw [htrace] at he
    have hall : ((FuzzreconcileReferencedObject demoGen demoTargets [9, 0, 1]
        PkgState.initial).trace.all (fun e => !demoPanics e)) = true := rfl
    have := List.all_eq_true.1 hall e he
    simpa using this
  have h := EntryPoint_run_contract EntryPoint.FuzzreconcileReferencedObject demoGen demoTargets
    demoPanics [9, 0, 1] PkgState.initial hno
  ⟨rfl, hno, h.choose, h.choose_spec.1, h.choose_spec.2.1, h.choose_spec.2.2.1⟩

/-- C8, counterexample to the claim as stated. When `reconcileControlPlane`
panics, `FuzzreconcileControlPlane` on `[7, 8, 1, 5]` has called its reconciler
method exactly once and returns nothing: its return value is neither 0 nor 1,
and "1 exactly when the method was called once" fails. -/
theorem EntryPoint_run_panicking_target :
    (EntryPoint.FuzzreconcileControlPlane.run demoGen demoTargets demoPanics [7, 8, 1, 5]
        PkgState.initial).ret = none ∧
    invocations Target.reconcileControlPlane
      (EntryPoint.FuzzreconcileControlPlane.run demoGen demoTargets demoPanics [7, 8, 1, 5]
        PkgState.initial).trace = 1 ∧
    ¬ ((EntryPoint.FuzzreconcileControlPlane.run demoGen demoTargets demoPanics [7, 8, 1, 5]
          PkgState.initial).ret = some 0 ∨
       (EntryPoint.FuzzreconcileControlPlane.run demoGen demoTargets demoPanics [7, 8, 1, 5]
          PkgState.initial).ret = some 1) ∧
    ¬ ((EntryPoint.FuzzreconcileControlPlane.run demoGen demoTargets demoPanics [7, 8, 1, 5]
          PkgState.initial).ret = some 1 ↔
       invocations Target.reconcileControlPlane
         (EntryPoint.FuzzreconcileControlPlane.run demoGen demoTargets demoPanics [7, 8, 1, 5]
           PkgState.initial).trace = 1) := by
  have hret : (EntryPoint.FuzzreconcileControlPlane.run demoGen demoTargets demoPanics
      [7, 8, 1, 5] PkgState.initial).ret = none := rfl
  have hinv : invocations Target.reconcileControlPlane
      (EntryPoint.FuzzreconcileControlPlane.run demoGen demoTargets demoPanics [7, 8, 1, 5]
        PkgState.initial).trace = 1 := rfl
  refine ⟨hret, hinv, ?_, ?_⟩
  · rw [hret]; simp
  · rw [hret, hinv]; simp

/-! ## Places where the code departs from the claims -/

/-- `FuzzreconcileReferencedObject` never runs `validateUnstructured`: once the
three generation calls succeed the reconciler is called on the generated
documents, whatever their keys. -/
theorem FuzzreconcileReferencedObject_calls_unvalidated {W : World} (G : Gen W)
    (T : Targets W) (data : List Nat) (st : PkgState) (cluster : W.Cluster)
    (current desired : Unstructured) (f1 f2 f3 : W.Consumer)
    (h1 : G.GenerateCluster (G.NewConsumer data) = .ok (cluster, f1))
    (h2 : GetUnstructured G f1 = .ok (current, f2))
    (h3 : GetUnstructured G f2 = .ok (desired, f3)) :
    (FuzzreconcileReferencedObject G T data st).ret = 1 ∧
    ∃ r opts, Event.reconcileReferencedObject r
        { cluster := some cluster, current := some current, desired := some desired,
          opts := opts } ∈ (FuzzreconcileReferencedObject G T data st).trace := by
  simp [FuzzreconcileReferencedObject, h1, h2, h3, orReturn0_ok]

/-- C5 (the code departs from the claim). On the fuzz data `[9, 0, 0]` both
generated documents consist of the single key `a`, so `validateUnstructured`
rejects each of them; `FuzzreconcileReferencedObject` still calls
`reconcileReferencedObject` on them and returns 1, and no validation call
appears in its trace. -/
theorem FuzzreconcileReferencedObject_invalid_documents_reach_target :
    (FuzzreconcileReferencedObject demoGen demoTargets [9, 0, 0] PkgState.initial).ret = 1 ∧
    (FuzzreconcileReferencedObject demoGen demoTargets [9, 0, 0] PkgState.initial).trace =
      [Event.step Step.GenerateStruct true, Event.step Step.GetUnstructured true,
       Event.step Step.GetUnstructured true,
       Event.fakeClientBuild { scheme := some [], objects := [] },
       Event.reconcileReferencedObject
         { Client := some { scheme := some [], objects := [] }, APIReader := none,
           recorder := some 32 }
         { cluster := some (9 : Nat),
           current := some { Object := some [("a", Value.number 1)] },
           desired := some { Object := some [("a", Value.number 1)] },
           opts := [HelperOption.AuthoritativePaths [["spec", "machineTemplate", "metadata"]]] }] ∧
    validateUnstructured { Object := some [("a", Value.number 1)] } = .error "invalid unstr" :=
  ⟨rfl, rfl, rfl⟩

/-- `FuzzreconcileControlPlane` never calls `reconcileInfrastructureCluster`. -/
theorem FuzzreconcileControlPlane_never_calls_reconcileInfrastructureCluster {W : World}
    (G : Gen W) (T : Targets W) (data : List Nat) (st : PkgState) :
    invocations Target.reconcileInfrastructureCluster
      (FuzzreconcileControlPlane G T data st).trace = 0 := by
  unfold FuzzreconcileControlPlane
  rcases h1 : G.GenerateCluster (G.NewConsumer data) with e | ⟨cluster, f1⟩
  · simp [h1, orReturn0_error, invocations, Event.target?]
  rcases h2 : G.GenerateCluster f1 with e | ⟨desiredCluster, f2⟩
  · simp [h1, h2, orReturn0_ok, orReturn0_error, invocations, Event.target?]
  rcases h3 : G.GenerateClusterBlueprint f2 with e | ⟨bp, f3⟩
  · simp [h1, h2, h3, orReturn0_ok, orReturn0_error, invocations, Event.target?]
  rcases h4 : validateBlueprint bp with e | u
  · simp [h1, h2, h3, h4, orReturn0_ok, orReturn0_error, invocations, Event.target?]
  simp only [h1, h2, h3, h4, orReturn0_ok, invocations]
  split <;> simp [Event.target?]

/-- C6 (the code departs from its header comment). On the fuzz data
`[7, 8, 1, 5]` the call `FuzzreconcileControlPlane` returns 1, and the one
reconciler method it called is `reconcileControlPlane`, not the
`reconcileInfrastructureCluster` named in the comment above the function. -/
theorem FuzzreconcileControlPlane_calls_reconcileControlPlane :
    (FuzzreconcileControlPlane demoGen demoTargets [7, 8, 1, 5] PkgState.initial).ret = 1 ∧
    (FuzzreconcileControlPlane demoGen demoTargets [7, 8, 1, 5] PkgState.initial).trace.filterMap
      Event.target? = [Target.reconcileControlPlane] ∧
    invocations Target.reconcileInfrastructureCluster
      (FuzzreconcileControlPlane demoGen demoTargets [7, 8, 1, 5] PkgState.initial).trace = 0 :=
  ⟨rfl, rfl, rfl⟩

theorem orReturn0_st {W : World} {α : Type} (s : Step) (r : Except String α)
    (st : PkgState) (k : α → Outcome W) (hk : ∀ a, (k a).st = st) :
    (orReturn0 s r st k).st = st := by
  cases r with
  | error e => rfl
  | ok a => exact hk a

theorem orReturn0_no_initFunc {W : World} {α : Type} (s : Step) (r : Except String α)
    (st : PkgState) (k : α → Outcome W)
    (hk : ∀ a, (k a).trace.countP Event.isInitFunc = 0) :
    (orReturn0 s r st k).trace.countP Event.isInitFunc = 0 := by
  cases r with
  | error e => rfl
  | ok a =>
    rw [orReturn0_ok]
    simpa [List.countP_cons, Event.isInitFunc] using hk a

/-- One entry-point call runs `initFunc` exactly when it takes `initter` from
unfired to fired. -/
theorem EntryPoint_initFunc_count {W : World} (ep : EntryPoint) (G : Gen W) (T : Targets W)
    (data : List Nat) (st : PkgState) :
    (ep.call G T data st).trace.countP Event.isInitFunc + (if st.initterDone then 1 else 0) =
      (if (ep.call G T data st).st.initterDone then 1 else 0) := by
  cases ep
  · have hst : (FuzzreconcileMachineHealthCheck G T data st).st = (initterDo W st).1 := by
      simp only [FuzzreconcileMachineHealthCheck]
      refine orReturn0_st _ _ _ _ (fun ⟨current, f1⟩ => ?_)
      exact orReturn0_st _ _ _ _ (fun ⟨desired, f2⟩ => rfl)
    have hcount : (FuzzreconcileMachineHealthCheck G T data st).trace.countP Event.isInitFunc =
        (initterDo W st).2.countP Event.isInitFunc := by
      simp only [FuzzreconcileMachineHealthCheck, List.countP_append]
      rw [orReturn0_no_initFunc, Nat.add_zero]
      rintro ⟨current, f1⟩
      refine orReturn0_no_initFunc _ _ _ _ (fun ⟨desired, f2⟩ => ?_)
      simp [List.countP_cons, Event.isInitFunc]
    simp only [EntryPoint.call, hst, hcount]
    unfold initterDo
    cases h : st.initterDone <;> simp [h, List.countP_cons, Event.isInitFunc]
  · have hst : (FuzzreconcileReferencedObject G T data st).st = st := by
      simp only [FuzzreconcileReferencedObject]
      refine orReturn0_st _ _ _ _ (fun ⟨cluster, f1⟩ => ?_)
      refine orReturn0_st _ _ _ _ (fun ⟨current, f2⟩ => ?_)
      exact orReturn0_st _ _ _ _ (fun ⟨desired, f3⟩ => rfl)
    have hcount : (FuzzreconcileReferencedObject G T data st).trace.countP Event.isInitFunc
        = 0 := by
      simp only [FuzzreconcileReferencedObject]
      refine orReturn0_no_initFunc _ _ _ _ (fun ⟨cluster, f1⟩ => ?_)
      refine orReturn0_no_initFunc _ _ _ _ (fun ⟨current, f2⟩ => ?_)
      refine orReturn0_no_initFunc _ _ _ _ (fun ⟨desired, f3⟩ => ?_)
      simp [List.countP_cons, Event.isInitFunc]
    simp only [EntryPoint.call, hst, hcount, Nat.zero_add]
  · have hst : (FuzzreconcileControlPlane G T data st).st = st := by
      simp only [FuzzreconcileControlPlane]
      refine orReturn0_st _ _ _ _ (fun ⟨cluster, f1⟩ => ?_)
      refine orReturn0_st _ _ _ _ (fun ⟨desiredCluster, f2⟩ => ?_)
      refine orReturn0_st _ _ _ _ (fun ⟨bp, f3⟩ => ?_)
      exact orReturn0_st _ _ _ _ (fun _ => rfl)
    have hcount : (FuzzreconcileControlPlane G T data st).trace.countP Event.isInitFunc
        = 0 := by
      simp only [FuzzreconcileControlPlane]
      refine orReturn0_no_initFunc _ _ _ _ (fun ⟨cluster, f1⟩ => ?_)
      refine orReturn0_no_initFunc _ _ _ _ (fun ⟨desiredCluster, f2⟩ => ?_)
      refine orReturn0_no_initFunc _ _ _ _ (fun ⟨bp, f3⟩ => ?_)
      refine orReturn0_no_initFunc _ _ _ _ (fun _ => ?_)
      split <;> simp [List.countP_cons, Event.isInitFunc]
    simp only [EntryPoint.call, hst, hcount, Nat.zero_add]
  · have hst : (FuzzClusterReconcile G T data st).st = st := by
      simp only [FuzzClusterReconcile]
      refine orReturn0_st _ _ _ _ (fun ⟨unstr, f1⟩ => ?_)
      refine orReturn0_st _ _ _ _ (fun _ => ?_)
      refine orReturn0_st _ _ _ _ (fun ⟨cluster, f2⟩ => ?_)
      exact orReturn0_st _ _ _ _ (fun ⟨node, f3⟩ => rfl)
    have hcount : (FuzzClusterReconcile G T data st).trace.countP Event.isInitFunc = 0 := by
      simp only [FuzzClusterReconcile]
      refine orReturn0_no_initFunc _ _ _ _ (fun ⟨unstr, f1⟩ => ?_)
      refine orReturn0_no_initFunc _ _ _ _ (fun _ => ?_)
      refine orReturn0_no_initFunc _ _ _ _ (fun ⟨cluster, f2⟩ => ?_)
      refine orReturn0_no_initFunc _ _ _ _ (fun ⟨node, f3⟩ => ?_)
      simp [List.countP_cons, Event.isInitFunc]
    simp only [EntryPoint.call, hst, hcount, Nat.zero_add]

theorem runCalls_initFunc_count {W : World} (G : Gen W) (T : Targets W)
    (calls : List (EntryPoint × List Nat)) (st : PkgState) :
    (runCalls G T calls st).2.countP Event.isInitFunc + (if st.initterDone then 1 else 0) =
      (if (runCalls G T calls st).1.initterDone then 1 else 0) := by
  induction calls generalizing st with
  | nil => simp [runCalls]
  | cons c rest ih =>
    obtain ⟨ep, data⟩ := c
    have h1 := EntryPoint_initFunc_count ep G T data st
    have h2 := ih (ep.call G T data st).st
    simp only [runCalls, List.countP_append]
    omega

/-- Over any sequence of entry-point calls from the initial package state,
`initFunc` runs at most once. -/
theorem initFunc_runs_at_most_once {W : World} (G : Gen W) (T : Targets W)
    (calls : List (EntryPoint × List Nat)) :
    (runCalls G T calls PkgState.initial).2.countP Event.isInitFunc ≤ 1 := by
  have h := runCalls_initFunc_count G T calls PkgState.initial
  have hle : (if (runCalls G T calls PkgState.initial).1.initterDone then 1 else 0) ≤ 1 := by
    split <;> omega
  omega

/-- C9 (the code departs from the claim). Starting from the initial package
state, a single call of `FuzzreconcileReferencedObject` on `[9, 0, 1]`, or of
`FuzzreconcileControlPlane` on `[7, 8, 1, 5]`, builds its fake client on
`fakeSchemeForFuzzing` while `initFunc` has not run and the scheme is still
empty, and leaves `initter` unfired. A call of
`FuzzreconcileMachineHealthCheck` on `[4, 5]` does run `initFunc` first and
builds its client on the scheme with the four groups registered. -/
theorem fake_client_built_on_empty_scheme :
    ((runCalls demoGen demoTargets [(EntryPoint.FuzzreconcileReferencedObject, [9, 0, 1])]
        PkgState.initial).2.countP Event.isInitFunc = 0 ∧
      Event.fakeClientBuild { scheme := some [], objects := [] } ∈
        (runCalls demoGen demoTargets [(EntryPoint.FuzzreconcileReferencedObject, [9, 0, 1])]
          PkgState.initial).2 ∧
      (runCalls demoGen demoTargets [(EntryPoint.FuzzreconcileReferencedObject, [9, 0, 1])]
        PkgState.initial).1 = PkgState.initial) ∧
    ((runCalls demoGen demoTargets [(EntryPoint.FuzzreconcileControlPlane, [7, 8, 1, 5])]
        PkgState.initial).2.countP Event.isInitFunc = 0 ∧
      Event.fakeClientBuild { scheme := some [], objects := [] } ∈
        (runCalls demoGen demoTargets [(EntryPoint.FuzzreconcileControlPlane, [7, 8, 1, 5])]
          PkgState.initial).2 ∧
      (runCalls demoGen demoTargets [(EntryPoint.FuzzreconcileControlPlane, [7, 8, 1, 5])]
        PkgState.initial).1 = PkgState.initial) ∧
    (runCalls demoGen demoTargets [(EntryPoint.FuzzreconcileMachineHealthCheck, [4, 5])]
        PkgState.initial).2 =
      [Event.initFunc, Event.step Step.GenerateStruct true, Event.step Step.GenerateStruct true,
       Event.fakeClientBuild
         { scheme := some [SchemeGroup.clientgoscheme, SchemeGroup.clusterv1,
             SchemeGroup.apiextensionsv1, SchemeGroup.corev1],
           objects := [SeedObject.controlPlane
             { Namespace := "default", Name := "cp1", Version := none, Replicas := none,
               UID := some "very-unique-identifier" }] },
       Event.reconcileMachineHealthCheck
         { Client := some
             { scheme := some [SchemeGroup.clientgoscheme, SchemeGroup.clusterv1,
                 SchemeGroup.apiextensionsv1, SchemeGroup.corev1],
               objects := [SeedObject.controlPlane
                 { Namespace := "default", Name := "cp1", Version := none, Replicas := none,
                   UID := some "very-unique-identifier" }] },
           APIReader := none, recorder := some 32 }
         (some (4 : Nat)) (some (5 : Nat))] :=
  ⟨⟨rfl, List.Mem.tail _ (List.Mem.tail _ (List.Mem.tail _ (List.Mem.head _))), rfl⟩,
   ⟨rfl, List.Mem.tail _ (List.Mem.tail _ (List.Mem.tail _ (List.Mem.tail _ (List.Mem.head _)))),
     rfl⟩,
   rfl⟩

end TopologyFuzz
